import Mathlib

/-
Verification development for alis-bot-rs (src/lib.rs, src/main.rs).

The Rust sources are shallowly embedded: pure functions become Lean
functions, the mutex/condvar-guarded coordination of `Request::process`
(lib.rs) and the server-event handlers of `run_instance` (main.rs) become a
small-step transition system in which every lock-held region of the source
is one atomic step.  `Instant` is modelled as a monotone `Nat` clock passed
explicitly.  The `glob` crate (version 0.3, the dependency used for
`Pattern`) is embedded from its source: `Pattern::new`, `matches_with` and
the default `MatchOptions`.
-/

namespace AlisBot

/-! ## Embedding of the glob crate (glob 0.3): `Pattern` -/

/-- glob crate `CharSpecifier`: one entry of a `[...]` character class. -/
inductive CharSpecifier where
  | singleChar : Char → CharSpecifier
  | charRange : Char → Char → CharSpecifier
deriving DecidableEq, Repr

/-- glob crate `PatternToken`. -/
inductive PatternToken where
  | char : Char → PatternToken
  | anyChar
  | anySequence
  | anyRecursiveSequence
  | anyWithin : List CharSpecifier → PatternToken
  | anyExcept : List CharSpecifier → PatternToken
deriving DecidableEq, Repr

/-- glob crate `Pattern`: the compiled token list (the `original` string and
the `is_recursive` flag of the Rust struct play no role in matching and are
omitted). -/
structure Pattern where
  tokens : List PatternToken
deriving DecidableEq, Repr

/-- glob crate `MatchOptions`. -/
structure MatchOptions where
  case_sensitive : Bool
  require_literal_separator : Bool
  require_literal_leading_dot : Bool
deriving DecidableEq, Repr

/-- glob crate `MatchOptions::new()`: case_sensitive defaults to true. -/
def MatchOptions.new : MatchOptions :=
  { case_sensitive := true
    require_literal_separator := false
    require_literal_leading_dot := false }

/-- `std::path::is_separator` on unix: only the slash. -/
def is_separator (c : Char) : Bool := c == '/'

/-- Rust `char::is_ascii`: code point at most 0x7F. -/
def is_ascii (c : Char) : Bool := c.toNat ≤ 127

/-- glob crate `parse_char_specifiers`: a `x-y` triple becomes a range,
any other character a singleton. -/
def parse_char_specifiers : List Char → List CharSpecifier
  | c1 :: '-' :: c2 :: rest => .charRange c1 c2 :: parse_char_specifiers rest
  | c :: rest => .singleChar c :: parse_char_specifiers rest
  | [] => []

/-- glob crate `chars_eq` (unix build, so the windows separator clause is
dropped).  Char.toLower agrees with Rust `to_ascii_lowercase` on the ASCII
range guarded here. -/
def chars_eq (a b : Char) (case_sensitive : Bool) : Bool :=
  if !case_sensitive && is_ascii a && is_ascii b then a.toLower == b.toLower
  else a == b

/-- glob crate `matches_any`: does `c` fall in one of the class entries.
`Char.toUpper` models `char::to_uppercase().next().unwrap()` on the ASCII
range guarded here. -/
def matches_any (c : Char) (specifiers : List CharSpecifier) (options : MatchOptions) : Bool :=
  specifiers.any fun specifier =>
    match specifier with
    | .singleChar sc => chars_eq c sc options.case_sensitive
    | .charRange lo hi =>
        (if !options.case_sensitive && is_ascii c && is_ascii lo && is_ascii hi then
          let lo2 := lo.toLower
          let hi2 := hi.toLower
          let lo_up := lo2.toUpper
          let hi_up := hi2.toUpper
          if lo2 != lo_up && hi2 != hi_up then
            let cl := c.toLower
            lo2 ≤ cl && cl ≤ hi2
          else false
        else false)
        || (lo ≤ c && c ≤ hi)

/-- glob crate `MatchResult`. -/
inductive MatchResult where
  | Match
  | SubPatternDoesntMatch
  | EntirePatternDoesntMatch
deriving DecidableEq, Repr

/-- One non-wildcard token of `Pattern::matches_from` tried against one
character: the guard arm restricting `?` and classes at separators and
leading dots, then the per-token tests. -/
def token_matches_char (options : MatchOptions) (follows_separator : Bool)
    (tok : PatternToken) (c : Char) : Bool :=
  let is_sep := is_separator c
  let restricted :=
    (options.require_literal_separator && is_sep)
    || (follows_separator && options.require_literal_leading_dot && c == '.')
  match tok with
  | .anyChar => !restricted
  | .anyWithin specifiers => !restricted && matches_any c specifiers options
  | .anyExcept specifiers => !restricted && !(matches_any c specifiers options)
  | .char c2 => chars_eq c c2 options.case_sensitive
  | _ => false

/-- The `while let Some(c) = file.next()` loop of `Pattern::matches_from`
for a `*` or `**` token: `try_rest` is the attempt to match the remaining
tokens against the remaining characters (the enclosing recursion at the
next token index).  When the file is exhausted the Rust `for` loop falls
through to the remaining tokens against the empty file, which is exactly
`try_rest` on the empty list. -/
def star_loop (options : MatchOptions) (is_recursive : Bool)
    (try_rest : Bool → List Char → MatchResult) :
    Bool → List Char → MatchResult
  | fs, [] => try_rest fs []
  | fs, c :: rest_file =>
      if fs && options.require_literal_leading_dot && c == '.' then
        .SubPatternDoesntMatch
      else
        let fs2 := is_separator c
        if is_recursive && !fs2 then star_loop options is_recursive try_rest fs2 rest_file
        else if !is_recursive && options.require_literal_separator && fs2 then
          .SubPatternDoesntMatch
        else
          match try_rest fs2 rest_file with
          | .SubPatternDoesntMatch => star_loop options is_recursive try_rest fs2 rest_file
          | m => m

/-- glob crate `Pattern::matches_from`, recursion on the token list (the
Rust `for` loop over `self.tokens[i..]`), with the star loop factored out
into `star_loop`. -/
def matches_from (options : MatchOptions) :
    List PatternToken → Bool → List Char → MatchResult
  | [], _, file => if file.isEmpty then .Match else .SubPatternDoesntMatch
  | .anySequence :: rest, fs, file =>
      (match matches_from options rest fs file with
       | .SubPatternDoesntMatch =>
           star_loop options false (fun fs2 f2 => matches_from options rest fs2 f2) fs file
       | m => m)
  | .anyRecursiveSequence :: rest, fs, file =>
      (match matches_from options rest fs file with
       | .SubPatternDoesntMatch =>
           star_loop options true (fun fs2 f2 => matches_from options rest fs2 f2) fs file
       | m => m)
  | tok :: rest, fs, file =>
      match file with
      | [] => .EntirePatternDoesntMatch
      | c :: rest_file =>
          if token_matches_char options fs tok c then
            matches_from options rest (is_separator c) rest_file
          else .SubPatternDoesntMatch

/-- glob crate `Pattern::matches_with`: the initial `follows_separator`
is true. -/
def Pattern.matches_with (p : Pattern) (str : String) (options : MatchOptions) : Bool :=
  matches_from options p.tokens true str.data == .Match

/-- glob crate `Pattern::matches`: default options. -/
def Pattern.matches (p : Pattern) (str : String) : Bool :=
  p.matches_with str MatchOptions.new

/-- glob crate `Pattern::new` compile loop, recursion on the remaining
characters with the previously consumed character (needed for the
component-boundary test of `**`) and the accumulated tokens.  `none` is the
`Err(PatternError)` return. -/
def compile_tokens (chars : List Char) (prev : Option Char) (acc : List PatternToken) :
    Option (List PatternToken) :=
  match chars with
  | [] => some acc
  | '?' :: rest => compile_tokens rest (some '?') (acc ++ [.anyChar])
  | '*' :: '*' :: '*' :: _ => none
  | '*' :: '*' :: rest2 =>
      if prev = none ∨ prev = some '/' then
        let acc2 :=
          if acc.length > 1 ∧ acc.getLast? = some PatternToken.anyRecursiveSequence then acc
          else acc ++ [.anyRecursiveSequence]
        match rest2 with
        | [] => some acc2
        | '/' :: rest3 => compile_tokens rest3 (some '/') acc2
        | _ => none
      else none
  | '*' :: rest => compile_tokens rest (some '*') (acc ++ [.anySequence])
  | '[' :: rest =>
      (match rest with
       | '!' :: rest2 =>
           if 2 ≤ rest2.length then
             match List.findIdx? (fun c => c == ']') (rest2.drop 1) with
             | none => none
             | some j =>
                 compile_tokens (rest2.drop (j + 2)) (some ']')
                   (acc ++ [.anyExcept (parse_char_specifiers (rest2.take (j + 1)))])
           else none
       | c1 :: rest2 =>
           if 1 ≤ rest2.length then
             match List.findIdx? (fun c => c == ']') rest2 with
             | none => none
             | some j =>
                 compile_tokens (rest2.drop (j + 1)) (some ']')
                   (acc ++ [.anyWithin (parse_char_specifiers (c1 :: rest2.take j))])
           else none
       | [] => none)
  | c :: rest => compile_tokens rest (some c) (acc ++ [.char c])
termination_by chars.length
decreasing_by all_goals (simp_wf <;> omega)

/-- glob crate `Pattern::new`: `none` models `Err(PatternError)`. -/
def Pattern.new (s : String) : Option Pattern :=
  (compile_tokens s.data none []).map Pattern.mk

/-! ## lib.rs data model -/

/-- Rust `str::parse::<u32>`: an optional leading plus sign, then at least
one ASCII digit, rejecting any other character and values of 2^32 or more
(overflow is a parse error).  `none` models `Err(ParseIntError)`. -/
def parseU32 (s : String) : Option Nat :=
  let ds := match s.data with
            | '+' :: rest => rest
            | l => l
  if ds.isEmpty then none
  else if ds.all (fun c => c.isDigit) then
    let v := ds.foldl (fun a c => a * 10 + (c.toNat - 48)) 0
    if v < 2 ^ 32 then some v else none
  else none

/-- lib.rs `parse_opt_u32` (lines 363-371): `Err` carries the message of
the underlying integer-parse failure. -/
def parse_opt_u32 (arg : Option String) : Except String (Option Nat) :=
  match arg with
  | some arg =>
      match parseU32 arg with
      | some val => .ok (some val)
      | none => .error "invalid digit found in string"
  | none => .ok none

/-- Result of running a fallible Rust function that may also panic:
`err` models `Err(failure::Error)` (with its message), `panicked` models a
panic, here always one from `.unwrap()` on an `Err`. -/
inductive Outcome (α : Type) where
  | ok : α → Outcome α
  | err : String → Outcome α
  | panicked : Outcome α
deriving DecidableEq, Repr

/-- lib.rs `Request` (lines 47-54). -/
structure Request where
  chan_pattern : Pattern
  topic_pattern : Option Pattern
  max_users : Option Nat
  min_users : Option Nat
  force_update : Bool
deriving DecidableEq, Repr

/-- lib.rs `Request::new` (lines 56-88).  Note the source calls
`Pattern::new(..).unwrap()` on both pattern arguments, so an invalid glob
pattern panics (`.panicked`) instead of producing the `Err` used for a
missing channel pattern or a bad numeric option. -/
def Request.new (chan_pattern topic_pattern max_users min_users : Option String)
    (force_update : Bool) : Outcome Request :=
  match chan_pattern with
  | none => .err "No pattern specified on channel name"
  | some s =>
      match Pattern.new s with
      | none => .panicked
      | some cp =>
          let tp : Outcome (Option Pattern) :=
            match topic_pattern with
            | some t =>
                match Pattern.new t with
                | none => .panicked
                | some p => .ok (some p)
            | none => .ok none
          match tp with
          | .panicked => .panicked
          | .err e => .err e
          | .ok tp =>
              match (match max_users with
                     | some m => parse_opt_u32 (some m)
                     | none => .ok none) with
              | .error e => .err e
              | .ok maxv =>
                  match (match min_users with
                         | some m => parse_opt_u32 (some m)
                         | none => .ok none) with
                  | .error e => .err e
                  | .ok minv => .ok ⟨cp, tp, maxv, minv, force_update⟩

/-- lib.rs `Channel` (lines 301-305). -/
structure Channel where
  name : String
  topic : String
  users : Nat
deriving DecidableEq, Repr

/-- lib.rs `Channel::new` (lines 307-320): a 4-field RPL_LIST record
`[marker, name, count, topic]`; the count must parse as a `u32`. -/
def Channel.new (vec : List String) : Except String Channel :=
  match vec with
  | [_marker, name, count, topic] =>
      match parseU32 count with
      | some users => .ok ⟨name, topic, users⟩
      | none => .error "invalid digit found in string"
  | _ => .error "Cannot parse RPL_LIST response from server"

/-- lib.rs `Channel::matches` (lines 321-335). -/
def Channel.matches (c : Channel) (request : Request) : Bool :=
  request.chan_pattern.matches c.name
    && (match request.topic_pattern with
        | some topic_pattern => topic_pattern.matches c.topic
        | none => true)
    && (match request.max_users with
        | some max => decide (c.users ≤ max)
        | none => true)
    && (match request.min_users with
        | some min => decide (min ≤ c.users)
        | none => true)

/-- lib.rs `impl fmt::Display for Channel` (lines 338-346): the format
string is the name left-aligned and space-padded to width 25, a space, the
user count, a colon-space, and the topic. -/
def Channel.to_string (c : Channel) : String :=
  (c.name ++ String.mk (List.replicate (25 - c.name.length) ' '))
    ++ " " ++ toString c.users ++ ": " ++ c.topic

/-- lib.rs `format_duration` (lines 353-361), on `Duration::as_secs`. -/
def format_duration (duration_secs : Nat) : String :=
  let seconds := duration_secs % 60
  let minutes := duration_secs / 60 % 60
  if minutes > 0 then toString minutes ++ "min" ++ toString seconds ++ "s"
  else toString seconds ++ "s"

/-- lib.rs `ChannelListing` (lines 203-206); `Instant` becomes a `Nat`
timestamp on the monotone session clock. -/
structure ChannelListing where
  channels : List Channel
  last_fetch : Nat
deriving DecidableEq, Repr

/-- lib.rs `ChannelListing::new` (lines 208-213): empty, stamped with the
current time. -/
def ChannelListing.new (now : Nat) : ChannelListing := ⟨[], now⟩

/-- lib.rs `ChannelListing::add_channel` (lines 214-219): push the parsed
channel, silently dropping a record that fails to parse. -/
def ChannelListing.add_channel (l : ChannelListing) (v : List String) : ChannelListing :=
  match Channel.new v with
  | .ok channel => { l with channels := l.channels ++ [channel] }
  | .error _ => l

/-- lib.rs `ChannelListing::set_timestamp` (lines 220-222). -/
def ChannelListing.set_timestamp (l : ChannelListing) (now : Nat) : ChannelListing :=
  { l with last_fetch := now }

/-- lib.rs `ChannelListing::has_expired` (lines 226-229):
`now - last_fetch > LIST_CACHE_TIME_SECS` with the TTL constant 300. -/
def ChannelListing.has_expired (l : ChannelListing) (now : Nat) : Bool :=
  decide (300 < now - l.last_fetch)

/-- lib.rs `ChannelListing::reset` (lines 230-233): clear the channels and
stamp the current time. -/
def ChannelListing.reset (l : ChannelListing) (now : Nat) : ChannelListing :=
  ({ l with channels := [] }).set_timestamp now

/-- lib.rs `ChannelListing::get_elapsed_time` (lines 234-236). -/
def ChannelListing.get_elapsed_time (l : ChannelListing) (now : Nat) : Nat :=
  now - l.last_fetch

/-! ## privmsg text preprocessing (lib.rs `privmsg_parse`, lines 158-175) -/

/-- Rust `str::to_lowercase` as used on the inbound message text,
restricted to its ASCII action (Char.toLower lowers exactly the ASCII
uppercase letters); the messages considered here are ASCII. -/
def rust_to_lowercase (s : String) : String := ⟨s.data.map Char.toLower⟩

/-- Rust `str::split_whitespace`: maximal non-whitespace runs, empties
discarded. -/
def split_whitespace_aux : List Char → List Char → List String
  | [], acc => if acc.isEmpty then [] else [⟨acc.reverse⟩]
  | c :: rest, acc =>
      if c.isWhitespace then
        if acc.isEmpty then split_whitespace_aux rest []
        else ⟨acc.reverse⟩ :: split_whitespace_aux rest []
      else split_whitespace_aux rest (c :: acc)

/-- Rust `str::split_whitespace` on a string. -/
def split_whitespace (s : String) : List String := split_whitespace_aux s.data []

/-- The token list `privmsg_parse` computes from the raw message (lib.rs
lines 164-165): lower-case, then split on whitespace. -/
def privmsg_tokens (msg : String) : List String := split_whitespace (rust_to_lowercase msg)

/-- The case-lowered copy of an Entry, the comparison object used by the
spec sentence on case-insensitive matching. -/
def lower_channel (c : Channel) : Channel :=
  ⟨rust_to_lowercase c.name, rust_to_lowercase c.topic, c.users⟩

/-! ## The coordination protocol as a small-step system

lib.rs `Request::process` (lines 90-131) and the three server-event arms
of main.rs `run_instance` (lines 164-207) interact through the shared
`Arc<(Mutex<(bool, ChannelListing)>, Condvar)>`.  Every region executed
while holding the mutex is one atomic step; between steps the lock is
released and other threads may interleave. -/

/-- The shared pair behind the mutex: `guard.0` is the availability flag,
`guard.1` the listing (main.rs lines 149-150). -/
structure SharedState where
  available : Bool
  listing : ChannelListing
deriving DecidableEq, Repr

/-- main.rs `run_instance` initial shared state (lines 141-150): the flag
starts `false` and the listing is `ChannelListing::new()`. -/
def initial_shared_state (now : Nat) : SharedState := ⟨false, ChannelListing.new now⟩

/-- Outbound effect label: `send_list_command` (lib.rs lines 348-351),
i.e. the `requestRefresh()` emission of the spec. -/
inductive Label where
  | sendList
deriving DecidableEq, Repr

/-- Program counter of one query task running `Request::process`:
* `check_expired`: the first locked region (lines 97-101), reading
  `has_expired` into the local `expired`;
* `at_decision`: the lock-free test `force_update || expired` (line 102)
  with the latched `expired` value;
* `initiate`: the locked region of lines 103-110 (flag to false, reset,
  `send_list_command`);
* `wait_available`: the condvar loop of lines 112-117;
* `snapshot`: the locked region of lines 118-130 (filter and elapsed time);
* `done`: the returned `(Vec<String>, Duration)`. -/
inductive ProcessPC where
  | check_expired
  | at_decision : Bool → ProcessPC
  | initiate
  | wait_available
  | snapshot
  | done : List String → Nat → ProcessPC
deriving DecidableEq, Repr

/-- Result of one atomic step of a query task: new program counter, new
shared state, and the outbound emission if any. -/
structure StepResult where
  pc : ProcessPC
  shared : SharedState
  label : Option Label
deriving DecidableEq, Repr

/-- One atomic step of `Request::process` (lib.rs lines 90-131) from the
given program counter, against the shared state and the current clock. -/
def process_step (req : Request) (pc : ProcessPC) (s : SharedState) (now : Nat) : StepResult :=
  match pc with
  | .check_expired => ⟨.at_decision (s.listing.has_expired now), s, none⟩
  | .at_decision expired =>
      if req.force_update || expired then ⟨.initiate, s, none⟩
      else ⟨.snapshot, s, none⟩
  | .initiate => ⟨.wait_available, ⟨false, s.listing.reset now⟩, some .sendList⟩
  | .wait_available =>
      if s.available then ⟨.snapshot, s, none⟩ else ⟨.wait_available, s, none⟩
  | .snapshot =>
      ⟨.done ((s.listing.channels.filter fun chan => chan.matches req).map Channel.to_string)
             (s.listing.get_elapsed_time now),
       s, none⟩
  | .done r e => ⟨.done r e, s, none⟩

/-- One query task: its request and where it is in `Request::process`. -/
structure Task where
  req : Request
  pc : ProcessPC
deriving DecidableEq, Repr

/-- A global configuration: the clock, the shared state, and the query
tasks. -/
structure Config where
  now : Nat
  shared : SharedState
  tasks : List Task
deriving DecidableEq, Repr

/-- A scheduling action: one step of query task `i`, or one of the server
event arms of `run_instance` (main.rs lines 180-205), or the clock
advancing. -/
inductive Action where
  | task : Nat → Action
  | rpl_list : List String → Action
  | rpl_list_end : Action
  | rpl_welcome : Action
  | tick : Nat → Action
deriving DecidableEq, Repr

/-- Apply one action to a configuration, returning the outbound emission
if any.
* `rpl_list` (main.rs lines 180-186): `add_channel` under the lock;
* `rpl_list_end` (main.rs lines 187-199): `set_timestamp`, flag to true,
  `notify_all` under the lock;
* `rpl_welcome` (main.rs lines 200-205): an unconditional
  `send_list_command`;
* `tick`: the monotone clock advances. -/
def step_config (cfg : Config) (a : Action) : Config × Option Label :=
  match a with
  | .task i =>
      match cfg.tasks[i]? with
      | some t =>
          let r := process_step t.req t.pc cfg.shared cfg.now
          ({ cfg with shared := r.shared, tasks := cfg.tasks.set i ⟨t.req, r.pc⟩ }, r.label)
      | none => (cfg, none)
  | .rpl_list v =>
      ({ cfg with shared := { cfg.shared with listing := cfg.shared.listing.add_channel v } },
       none)
  | .rpl_list_end =>
      ({ cfg with shared := ⟨true, cfg.shared.listing.set_timestamp cfg.now⟩ }, none)
  | .rpl_welcome => (cfg, some .sendList)
  | .tick k => ({ cfg with now := cfg.now + k }, none)

/-- Per-step observation of a run: the emission of the step and the
availability flag right after it. -/
structure Obs where
  label : Option Label
  available_after : Bool
deriving DecidableEq, Repr

/-- Run a schedule of actions, collecting the observations. -/
def run : Config → List Action → Config × List Obs
  | cfg, [] => (cfg, [])
  | cfg, a :: rest =>
      let s := step_config cfg a
      let r := run s.1 rest
      (r.1, ⟨s.2, s.1.shared.available⟩ :: r.2)

/-! ## Concrete instances used by witnesses and counterexamples -/

/-- The compiled pattern of the glob text `*`. -/
def star_pattern : Pattern := ⟨[.anySequence]⟩

/-- A forced request `list * -f`. -/
def req_forced : Request := ⟨star_pattern, none, none, none, true⟩

/-- A plain request `list *`. -/
def req_plain : Request := ⟨star_pattern, none, none, none, false⟩

/-- The compiled pattern of the glob text `#test`. -/
def hash_test_pattern : Pattern :=
  ⟨[.char '#', .char 't', .char 'e', .char 's', .char 't']⟩

/-- The request parsed from the (already lower-case) message `list #test`. -/
def req_c5 : Request := ⟨hash_test_pattern, none, none, none, false⟩

/-- Two concurrent forced queries against a fresh available cache: task 0
and task 1 both run `list * -f`.  Clock 10, cache stamped at 0. -/
def c1_cfg : Config :=
  ⟨10, ⟨true, ⟨[⟨"#old", "t", 4⟩], 0⟩⟩,
   [⟨req_forced, .check_expired⟩, ⟨req_forced, .check_expired⟩]⟩

/-- Task 0 initiates (check, decide, initiate), then task 1 does the same
while the coordinator is already refreshing, then the listing-complete
event arrives. -/
def c1_sched : List Action :=
  [.task 0, .task 0, .task 0, .task 1, .task 1, .task 1, .rpl_list_end]

/-- A forced query and a plain query against a fresh available cache. -/
def c2_cfg : Config :=
  ⟨10, ⟨true, ⟨[⟨"#old", "t", 4⟩], 0⟩⟩,
   [⟨req_forced, .check_expired⟩, ⟨req_plain, .check_expired⟩]⟩

/-- Task 0 initiates a refresh; one RPL_LIST record of the new listing
arrives; then task 1 (plain `list *`) runs to completion before the
listing-complete event: it snapshots the partial mid-refresh cache. -/
def c2_sched : List Action :=
  [.task 0, .task 0, .task 0, .rpl_list ["m", "#x", "7", "topic"],
   .task 1, .task 1, .task 1]

/-! ## Theorems -/

/-- Helper: ASCII lower-casing is idempotent. -/
theorem char_toLower_idem (c : Char) : c.toLower.toLower = c.toLower := by
  by_cases h : 65 ≤ c.toNat ∧ c.toNat ≤ 90
  · have hv : (c.toNat + 32).isValidChar := Or.inl (by omega)
    have ht : (Char.ofNat (c.toNat + 32)).toNat = c.toNat + 32 := by
      simp [Char.ofNat, hv]; rfl
    simp [Char.toLower, h, ht]
    omega
  · simp [Char.toLower, h]

/-- C1 counterexample: two concurrent forced queries produce two
`send_list_command` emissions inside one contiguous Refreshing period.
Task 0 flips the Coordinator to unavailable at step 3 (first emission);
the flag stays false through step 6, where task 1 — arriving while the
Coordinator is already Refreshing — re-initiates and emits again; only the
listing-complete event at step 7 flips the flag back.  So the claimed
at-most-one-refresh guarantee fails, and the second query performs the
initiation transition instead of proceeding only to the wait step. -/
theorem c1_counterexample :
    (run c1_cfg c1_sched).2.map Obs.available_after
      = [true, true, false, false, false, false, true]
    ∧ (run c1_cfg c1_sched).2.map Obs.label
      = [none, none, some .sendList, none, none, some .sendList, none] := by decide

/-- C1 (amended): the initiation decision of `Request::process` consults
only `force_update || expired` — never the availability flag — and the
initiation step resets the cache and emits the LIST command regardless of
the availability flag.  Hence a second forced query (or one that latched an
expired observation) re-triggers the refresh request even while a refresh
is in flight, while a query whose latched test is false skips straight to
the snapshot step, not to the wait step. -/
theorem c1_initiation_ignores_availability (req : Request) (e : Bool) (s : SharedState)
    (now : Nat) :
    (process_step req (.at_decision e) s now
      = if req.force_update || e then ⟨.initiate, s, none⟩ else ⟨.snapshot, s, none⟩)
    ∧ process_step req .initiate s now
      = ⟨.wait_available, ⟨false, ⟨[], now⟩⟩, some .sendList⟩ := ⟨rfl, rfl⟩

/-- C2 counterexample: a plain (unforced) query arriving during a refresh
returns partial mid-refresh results.  Task 0 initiates a refresh (step 3,
flag false), one record of the incomplete new listing arrives (step 4),
and task 1 runs to completion (steps 5-7) before the listing-complete
event: it finishes with the single mid-refresh entry as its result while
the Coordinator is still unavailable, because its expiry check saw the
timestamp freshly stamped by `reset` and it never consulted the flag. -/
theorem c2_counterexample :
    (run c2_cfg c2_sched).2.map Obs.available_after
      = [true, true, false, false, false, false, false]
    ∧ ((run c2_cfg c2_sched).1.tasks[1]?).map Task.pc
      = some (.done [Channel.to_string ⟨"#x", "topic", 7⟩] 0)
    ∧ (run c2_cfg c2_sched).1.shared.available = false := by decide

/-- C2 (amended): a query reaches the snapshot step only through the wait
step after observing the availability flag true, or through the fast path
whose latched `force_update || expired` test is false; the fast path never
consults the availability flag, so (per the counterexample) a fast-path
query arriving mid-refresh snapshots the partial cache. -/
theorem c2_snapshot_gate (req : Request) (pc : ProcessPC) (s : SharedState) (now : Nat)
    (h : (process_step req pc s now).pc = .snapshot) :
    (pc = .wait_available ∧ s.available = true)
    ∨ (∃ e, pc = .at_decision e ∧ (req.force_update || e) = false) := by
  cases pc with
  | check_expired => simp [process_step] at h
  | at_decision e =>
      right
      refine ⟨e, rfl, ?_⟩
      by_cases hc : (req.force_update || e) = true
      · simp [process_step, hc] at h
      · simpa using hc
  | initiate => simp [process_step] at h
  | wait_available =>
      by_cases ha : s.available = true
      · exact Or.inl ⟨rfl, ha⟩
      · simp [process_step, ha] at h
  | snapshot => simp [process_step] at h
  | done r e => simp [process_step] at h

/-- C2 witness: a task at the wait step with the flag true steps to the
snapshot, discharging the hypothesis of the gate theorem concretely. -/
theorem c2_snapshot_gate_witness :
    (ProcessPC.wait_available = ProcessPC.wait_available
      ∧ (SharedState.mk true (ChannelListing.new 0)).available = true)
    ∨ (∃ e, ProcessPC.wait_available = ProcessPC.at_decision e
        ∧ (req_plain.force_update || e) = false) :=
  c2_snapshot_gate req_plain .wait_available ⟨true, ChannelListing.new 0⟩ 5 (by decide)

/-- C3 counterexample: at session start the availability flag of the
shared state built by `run_instance` (main.rs line 150 initialises the
mutex with `(false, listing)`) is false, not true as claimed. -/
theorem c3_counterexample : ¬ ((initial_shared_state 0).available = true) := by decide

/-- C3 (amended): the initial shared state is Unavailable — flag false —
with an empty cache stamped at the session-start time; the flag first
becomes true when the first listing-complete event is processed. -/
theorem c3_initial_state (now : Nat) :
    initial_shared_state now = ⟨false, ⟨[], now⟩⟩ := rfl

/-- C4: `Channel::matches` is exactly the conjunction of the name-pattern
test, the optional topic-pattern test (absent topic pattern passes), the
optional upper user bound, and the optional lower user bound. -/
theorem c4_matches_iff (c : Channel) (r : Request) :
    c.matches r = true ↔
      (r.chan_pattern.matches c.name = true
        ∧ (∀ tp, r.topic_pattern = some tp → tp.matches c.topic = true)
        ∧ (∀ m, r.max_users = some m → c.users ≤ m)
        ∧ (∀ m, r.min_users = some m → m ≤ c.users)) := by
  cases htp : r.topic_pattern <;> cases hmax : r.max_users <;> cases hmin : r.min_users <;>
    simp [Channel.matches, htp, hmax, hmin] <;> tauto

/-- C4 witness: the iff applied to a concrete matching channel/request. -/
theorem c4_matches_iff_witness : req_plain.chan_pattern.matches "#x" = true :=
  ((c4_matches_iff ⟨"#x", "topic", 7⟩ req_plain).mp (by decide)).1

/-- C5 counterexample: the raw message `list #test` tokenises (after the
lower-casing of privmsg_parse) to the pattern text `#test`, whose compiled
query does not match the entry named `#Test` but does match its
case-lowered copy — so matching an entry against the parsed query is not
the same as matching the case-lowered entry, refuting the claimed
case-insensitivity. -/
theorem c5_counterexample :
    privmsg_tokens "list #test" = ["list", "#test"]
    ∧ Pattern.new "#test" = some hash_test_pattern
    ∧ Request.new (some "#test") none none none false = .ok req_c5
    ∧ Channel.matches ⟨"#Test", "", 4⟩ req_c5 = false
    ∧ Channel.matches (lower_channel ⟨"#Test", "", 4⟩) req_c5 = true := by
  refine ⟨by decide, ?_, ?_, by decide, by decide⟩
  · simp [Pattern.new, compile_tokens, hash_test_pattern]
  · simp [Request.new, Pattern.new, compile_tokens, req_c5, hash_test_pattern]

/-- C5 (amended): the query text is lower-cased before tokenising (so the
token list is a fixed point of lower-casing), but matching against entries
is case-sensitive: the default glob options have `case_sensitive` true,
under which `chars_eq` is plain character equality, and consequently
matching an entry does not in general coincide with matching its
case-lowered copy. -/
theorem c5_case_sensitive_matching :
    (∀ msg : String, privmsg_tokens (rust_to_lowercase msg) = privmsg_tokens msg)
    ∧ MatchOptions.new.case_sensitive = true
    ∧ (∀ a b : Char, chars_eq a b true = (a == b))
    ∧ ¬ (∀ (c : Channel) (req : Request),
          Channel.matches c req = Channel.matches (lower_channel c) req) := by
  refine ⟨fun msg => ?_, rfl, fun a b => rfl, fun hall => ?_⟩
  · have hmap : (msg.data.map Char.toLower).map Char.toLower = msg.data.map Char.toLower := by
      rw [List.map_map]
      exact List.map_congr_left fun x _ => char_toLower_idem x
    simp [privmsg_tokens, rust_to_lowercase, hmap]
  · exact absurd (hall ⟨"#Test", "", 4⟩ req_c5) (by decide)

/-- C6: on the invalid glob pattern `[` (unclosed character class),
`Pattern::new` fails, and `Request::new` — which calls `.unwrap()` on it —
panics instead of returning the error result the specification promises:
the claim is right and the code is wrong. -/
theorem c6_invalid_pattern_panics :
    Pattern.new "[" = none
    ∧ Request.new (some "[") none none none false = Outcome.panicked := by
  constructor <;> simp [Request.new, Pattern.new, compile_tokens]

/-- C7: `Channel::new` succeeds exactly on 4-field records whose third
field parses as a `u32`, and then the name is field 1, the topic field 3,
and the count the parsed value; otherwise it returns an error. -/
theorem c7_from_record (v : List String) :
    match Channel.new v with
    | .ok c => v.length = 4 ∧ parseU32 (v.getD 2 "") = some c.users
                ∧ c.name = v.getD 1 "" ∧ c.topic = v.getD 3 ""
    | .error _ => v.length ≠ 4 ∨ parseU32 (v.getD 2 "") = none := by
  match v with
  | [] => simp [Channel.new]
  | [a] => simp [Channel.new]
  | [a, b] => simp [Channel.new]
  | [a, b, c] => simp [Channel.new]
  | [a, b, c, d] => cases h : parseU32 c <;> simp [Channel.new, h]
  | a :: b :: c :: d :: e :: t => simp [Channel.new]

/-- C7 witness: the characterisation evaluated on the well-formed record
of the repository test suite. -/
theorem c7_from_record_witness :
    parseU32 "4" = some 4
    ∧ Channel.new ["foo", "#test-channel", "4", "abar"]
        = .ok ⟨"#test-channel", "abar", 4⟩ := by
  have h := c7_from_record ["foo", "#test-channel", "4", "abar"]
  exact ⟨by decide, by rfl⟩

/-- C8 counterexample: the cache age 3600 seconds is at least 60 seconds,
yet `format_duration` renders it as `0s` — both the minutes and the
seconds are taken modulo an hour, so the rendering is not faithful for
durations of one hour or more. -/
theorem c8_counterexample : format_duration 3600 = "0s" ∧ 60 ≤ 3600 := by decide

/-- C8 (amended): `format_duration` is periodic with period one hour;
below one hour it renders faithfully — seconds only under 60 seconds,
minutes plus seconds from 60 seconds up — but hours are discarded. -/
theorem c8_amended_rendering (d : Nat) :
    format_duration (d + 3600) = format_duration d
    ∧ (d < 60 → format_duration d = toString d ++ "s")
    ∧ (60 ≤ d → d < 3600 →
        format_duration d = toString (d / 60) ++ "min" ++ toString (d % 60) ++ "s") := by
  refine ⟨?_, fun h => ?_, fun h1 h2 => ?_⟩
  · have e1 : (d + 3600) % 60 = d % 60 := by omega
    have e2 : (d + 3600) / 60 % 60 = d / 60 % 60 := by omega
    simp only [format_duration, e1, e2]
  · have e1 : d / 60 % 60 = 0 := by omega
    have e2 : d % 60 = d := by omega
    simp [format_duration, e1, e2]
  · have e1 : d / 60 % 60 = d / 60 := by omega
    have e2 : 0 < d / 60 := by omega
    simp [format_duration, e1, e2]

/-- C8 witness: the amended rendering at 100 seconds (and its one-hour
shift 3700). -/
theorem c8_amended_rendering_witness :
    format_duration 3700 = format_duration 100 ∧ format_duration 100 = "1min40s" := by
  have h := c8_amended_rendering 100
  refine ⟨h.1, ?_⟩
  have h2 := h.2.2 (by decide) (by decide)
  have h3 : (toString (100 / 60) ++ "min" ++ toString (100 % 60) ++ "s" : String)
      = "1min40s" := by decide
  exact h2.trans h3

/-- C9: a query with `force_update` false whose expiry check latches a
non-expired cache takes the fast path: the check step emits nothing, the
decision step goes directly to the snapshot step (never to initiate or to
the wait step), and the snapshot step filters the cache and finishes
without blocking or emitting. -/
theorem c9_fast_path (req : Request) (s : SharedState) (now : Nat)
    (hforce : req.force_update = false)
    (hfresh : s.listing.has_expired now = false) :
    process_step req .check_expired s now = ⟨.at_decision false, s, none⟩
    ∧ (∀ (s2 : SharedState) (now2 : Nat),
        process_step req (.at_decision false) s2 now2 = ⟨.snapshot, s2, none⟩)
    ∧ (∀ (s2 : SharedState) (now2 : Nat),
        process_step req .snapshot s2 now2
          = ⟨.done ((s2.listing.channels.filter fun chan => chan.matches req).map
                      Channel.to_string)
                   (s2.listing.get_elapsed_time now2),
             s2, none⟩) := by
  refine ⟨?_, fun s2 now2 => ?_, fun s2 now2 => ?_⟩ <;> simp [process_step, hforce, hfresh]

/-- C9 witness: the fast path taken by a plain `list *` against a fresh
cache at clock 10. -/
theorem c9_fast_path_witness :
    process_step req_plain .check_expired ⟨true, ChannelListing.new 0⟩ 10
      = ⟨.at_decision false, ⟨true, ChannelListing.new 0⟩, none⟩ :=
  (c9_fast_path req_plain ⟨true, ChannelListing.new 0⟩ 10 rfl (by decide)).1

/-- C10: `add_channel` never touches the timestamp; it appends exactly the
parsed entry at the end on a well-formed record and leaves the entry list
unchanged on a malformed one; and the timestamp writers are `reset` (which
also clears the entries) and `set_timestamp` (which touches nothing
else). -/
theorem c10_add_channel_frame (l : ChannelListing) (v : List String) (now : Nat) :
    ((l.add_channel v).last_fetch = l.last_fetch)
    ∧ (match Channel.new v with
       | .ok c => (l.add_channel v).channels = l.channels ++ [c]
       | .error _ => (l.add_channel v).channels = l.channels)
    ∧ (l.reset now = ⟨[], now⟩)
    ∧ ((l.set_timestamp now).last_fetch = now)
    ∧ ((l.set_timestamp now).channels = l.channels) := by
  refine ⟨?_, ?_, rfl, rfl, rfl⟩ <;> cases h : Channel.new v <;>
    simp [ChannelListing.add_channel, h]

end AlisBot
